import Mathlib

/-!
Verification of the Ofertownik roofing-estimation engine.

The definitions below are shallow embeddings of the Python source files
app/services/cost_calculations.py, app/utils/validation.py,
app/services/margin_calculator.py, app/models/cost_item.py,
app/services/roof_calculations.py, gutter_calculations.py,
chimney_calculations.py, app/services/flashing_calculations.py,
app/services/felt_calculations.py and app/services/timber_calculations.py.

Modelling conventions: Python floats are modelled as exact rationals
(finance pipeline) or reals (trigonometric geometry); Python dicts used
as records become structures, dicts used as keyed accumulators become
association lists in insertion order; a raised ValueError becomes an
Except.error; the float value inf becomes a dedicated constructor.
A dict field that may be missing or explicitly None is a PyField.
-/

/-- Embeds a Python value that is either an actual value or None:
the result of a dict lookup. -/
inductive PyField (α : Type) where
  | absent
  | null
  | val (a : α)
deriving DecidableEq

/-- Embeds dict.get(key, default): the default for an absent key, None for
an explicit null, otherwise the stored value (none models Python None). -/
def PyField.get {α : Type} (f : PyField α) (d : α) : Option α :=
  match f with
  | .absent => some d
  | .null => none
  | .val a => some a

/-- Embeds dict.get(key) with no default: None when the key is absent. -/
def PyField.getNone {α : Type} (f : PyField α) : Option α :=
  match f with
  | .absent => none
  | .null => none
  | .val a => some a

/-- Embeds the Python expression v or d: d when v is None or falsy. -/
def pyOr {α : Type} (v : Option α) (falsy : α → Prop) [DecidablePred falsy] (d : α) : α :=
  match v with
  | none => d
  | some a => if falsy a then d else a

/-- Embeds the Python str.lower() method (character-wise lowering on
the character list; the inputs here are ASCII). -/
def pyLower (s : String) : String :=
  ⟨s.data.map Char.toLower⟩

/-- Embeds the integer selected by Decimal.quantize with ROUND_HALF_UP
(ties away from zero) applied to a value already scaled to hundredths. -/
def hazRound (x : ℚ) : ℤ :=
  if 0 ≤ x then ⌊x + 1/2⌋ else -⌊-x + 1/2⌋

/-- Embeds cost_calculations._round(val, 2): round half away from zero to
two decimal places. -/
def round2 (x : ℚ) : ℚ :=
  ((hazRound (x * 100) : ℤ) : ℚ) / 100

/-- An input line item for compute_item / validate_cost_item: the dict keys
the computations read. Keys only copied through (unit, note) are omitted. -/
structure ItemIn where
  name : PyField String
  quantity : PyField ℚ
  price_unit_net : PyField ℚ
  vat_rate : PyField ℤ
  category : PyField String
deriving DecidableEq

/-- The augmented item produced by compute_item (the normalized fields
plus the three computed totals). -/
structure ItemOut where
  quantity : ℚ
  price_unit_net : ℚ
  vat_rate : ℤ
  category : String
  total_net : ℚ
  vat_value : ℚ
  total_gross : ℚ
deriving DecidableEq

/-- Embeds cost_calculations.compute_item: resolves quantity and unit
price with pythonic missing / None / falsy fallbacks, vat_rate with
default 23 but None mapped to 0, computes net / vat / gross and rounds
each of the three independently with round2; the category is defaulted
to material and lowercased. The Python function returns a shallow copy
of the input dict augmented with these fields. -/
def compute_item (item : ItemIn) : ItemOut :=
  let qty : ℚ := pyOr (item.quantity.get 0) (fun x => x = 0) 0
  let price_net : ℚ := pyOr (item.price_unit_net.get 0) (fun x => x = 0) 0
  let vat : ℤ := pyOr (item.vat_rate.get 23) (fun x => x = 0) 0
  let total_net : ℚ := qty * price_net
  let vat_value : ℚ := total_net * (vat : ℚ) / 100
  let total_gross : ℚ := total_net + vat_value
  { quantity := qty
  , price_unit_net := round2 price_net
  , vat_rate := vat
  , category := pyLower (pyOr item.category.getNone (fun s => s = "") "material")
  , total_net := round2 total_net
  , vat_value := round2 vat_value
  , total_gross := round2 total_gross }

/-- Embeds validation.validate_cost_item: returns (is_valid, message).
A None numeric value makes float() / int() raise TypeError, which the
Python code catches and turns into a must-be-a-number message. -/
def validate_cost_item (item : ItemIn) : Bool × String :=
  match item.name.getNone with
  | none => (false, "Nazwa jest wymagana")
  | some nm =>
    if nm = "" then (false, "Nazwa jest wymagana")
    else
      match item.quantity.get 0 with
      | none => (false, "Ilość musi być liczbą")
      | some q =>
        if q < 0 then (false, "Ilość nie może być ujemna")
        else
          match item.price_unit_net.get 0 with
          | none => (false, "Cena musi być liczbą")
          | some p =>
            if p < 0 then (false, "Cena nie może być ujemna")
            else
              match item.vat_rate.get 23 with
              | none => (false, "Stawka VAT musi być liczbą całkowitą")
              | some v =>
                if ¬(v = 0 ∨ v = 8 ∨ v = 23) then (false, "Stawka VAT musi być 0, 8 lub 23")
                else (true, "")

/-- A net / vat / gross triple: one bucket of by_vat or by_category, and
also the shape of the summary. -/
structure Sums where
  net : ℚ
  vat : ℚ
  gross : ℚ
deriving DecidableEq

/-- Pointwise addition of buckets. -/
def Sums.add (a b : Sums) : Sums :=
  ⟨a.net + b.net, a.vat + b.vat, a.gross + b.gross⟩

/-- Embeds the Python dict-accumulation idiom of compute_totals: create
the key with zero sums when absent (new keys appended in insertion
order, as dicts preserve), then add the triple into the bucket. -/
def bump {K : Type} [DecidableEq K] (l : List (K × Sums)) (k : K) (s : Sums) : List (K × Sums) :=
  match l with
  | [] => [(k, s)]
  | (k2, s2) :: t => if k2 = k then (k2, s2.add s) :: t else (k2, s2) :: bump t k s

/-- Dict lookup on the association-list model. -/
def lookupSums {K : Type} [DecidableEq K] : List (K × Sums) → K → Option Sums
  | [], _ => none
  | (k2, s) :: t, k => if k2 = k then some s else lookupSums t k

/-- Sum of all buckets of a keyed accumulator. -/
def sumVals {K : Type} (l : List (K × Sums)) : Sums :=
  l.foldr (fun p acc => p.2.add acc) ⟨0, 0, 0⟩

/-- Embeds the category normalization applied inside the compute_totals
loop: (aug.get("category") or "material").lower(). -/
def catKey (s : String) : String :=
  pyLower (if s = "" then "material" else s)

/-- The loop state of compute_totals: augmented items, the two keyed
accumulators and the three running totals. -/
structure AggState where
  augmented : List ItemOut
  by_vat : List (ℤ × Sums)
  by_cat : List (String × Sums)
  total_net : ℚ
  total_vat : ℚ
  total_gross : ℚ

/-- One iteration of the compute_totals item loop. -/
def aggStep (st : AggState) (it : ItemIn) : AggState :=
  let aug := compute_item it
  { augmented := st.augmented ++ [aug]
  , by_vat := bump st.by_vat aug.vat_rate ⟨aug.total_net, aug.vat_value, aug.total_gross⟩
  , by_cat := bump st.by_cat (catKey aug.category) ⟨aug.total_net, aug.vat_value, aug.total_gross⟩
  , total_net := st.total_net + aug.total_net
  , total_vat := st.total_vat + aug.vat_value
  , total_gross := st.total_gross + aug.total_gross }

/-- The item loop of compute_totals. -/
def aggregate (items : List ItemIn) : AggState :=
  items.foldl aggStep ⟨[], [], [], 0, 0, 0⟩

/-- Embeds the transport block of compute_totals: the transport net, vat
and gross amounts. Python wraps this block in try/except, which cannot
fire on numeric inputs; float(transport_percent or 0.0) and
int(transport_vat or 0) are the identity on exact numeric inputs. -/
def transportTriple (total_net tp : ℚ) (tv : ℤ) : ℚ × ℚ × ℚ :=
  if 0 < tp ∧ 0 < total_net then
    let tnet := round2 (total_net * (tp / 100))
    let tvat := if tv ≠ 0 then round2 (tnet * (tv : ℚ) / 100) else 0
    (tnet, tvat, round2 (tnet + tvat))
  else (0, 0, 0)

/-- The transport entry of the compute_totals result. -/
structure TransportLine where
  net : ℚ
  vat : ℚ
  gross : ℚ
  vat_rate : ℤ
  percent : ℚ
deriving DecidableEq

/-- Rounding of a whole bucket, as applied to every by_vat and
by_category bucket at the end of compute_totals. -/
def roundSums (s : Sums) : Sums :=
  ⟨round2 s.net, round2 s.vat, round2 s.gross⟩

/-- The full result structure of compute_totals. -/
structure TotalsResult where
  items : List ItemOut
  by_vat : List (ℤ × Sums)
  by_category : List (String × Sums)
  transport : TransportLine
  summary : Sums

/-- Embeds cost_calculations.compute_totals: computes every item,
accumulates by_vat, by_category and the running totals, computes the
transport line as a percentage of the net total (only when both the
percentage and the net total are positive), folds a nonzero transport
line into the by_vat bucket of its rate and the service category
bucket, rounds every bucket, and rounds the summary. -/
def compute_totals (items : List ItemIn) (transport_percent : ℚ) (transport_vat : ℤ) : TotalsResult :=
  let st := aggregate items
  let t := transportTriple st.total_net transport_percent transport_vat
  let transport_net := t.1
  let transport_vat_value := t.2.1
  let transport_gross := t.2.2
  let total_net := round2 (st.total_net + transport_net)
  let total_vat := round2 (st.total_vat + transport_vat_value)
  let total_gross := round2 (st.total_gross + transport_gross)
  let tb : Sums := ⟨transport_net, transport_vat_value, transport_gross⟩
  let by_vat1 := if transport_net ≠ 0 then bump st.by_vat transport_vat tb else st.by_vat
  let by_cat1 := if transport_net ≠ 0 then bump st.by_cat "service" tb else st.by_cat
  { items := st.augmented
  , by_vat := by_vat1.map (fun p => (p.1, roundSums p.2))
  , by_category := by_cat1.map (fun p => (p.1, roundSums p.2))
  , transport := ⟨transport_net, transport_vat_value, transport_gross, transport_vat, transport_percent⟩
  , summary := ⟨round2 total_net, round2 total_vat, round2 total_gross⟩ }

/-- Embeds the integer selected by the Python built-in round (banker's
rounding, ties to even) on an already-scaled value. -/
def roundHalfEven (x : ℚ) : ℤ :=
  if Int.fract x < 1/2 then ⌊x⌋
  else if 1/2 < Int.fract x then ⌊x⌋ + 1
  else if ⌊x⌋ % 2 = 0 then ⌊x⌋ else ⌊x⌋ + 1

/-- Embeds round(x, 2) as used by margin_calculator.py and
CostItem.calculate_totals: round half to even at two decimal places. -/
def pyRound2 (x : ℚ) : ℚ :=
  ((roundHalfEven (x * 100) : ℤ) : ℚ) / 100

/-- Embeds the MarginSettings dataclass: global margin plus per-group
margins (the group_margins dict as an association list). -/
structure MarginSettings where
  global_margin_percent : ℚ
  group_margins : List (String × ℚ)
deriving DecidableEq

/-- Dict lookup in group_margins. -/
def lookupQ : List (String × ℚ) → String → Option ℚ
  | [], _ => none
  | (k, v) :: t, g => if k = g then some v else lookupQ t g

/-- Embeds MarginSettings.get_margin_for_item, the margin override
hierarchy: item override first, then the group margin when the group is
truthy and mapped, else the global margin. calculate_selling_price and
calculate_purchase_price inline this same resolution verbatim. -/
def MarginSettings.get_margin_for_item (s : MarginSettings) (group : Option String)
    (item_margin_override : Option ℚ) : ℚ :=
  match item_margin_override with
  | some m => m
  | none =>
    match group with
    | some g =>
      if g ≠ "" then
        match lookupQ s.group_margins g with
        | some m => m
        | none => s.global_margin_percent
      else s.global_margin_percent
    | none => s.global_margin_percent

/-- Embeds MarginSettings.calculate_selling_price:
round(purchase * (1 + margin/100), 2). -/
def MarginSettings.calculate_selling_price (s : MarginSettings) (purchase_price : ℚ)
    (group : Option String) (item_margin_override : Option ℚ) : ℚ :=
  pyRound2 (purchase_price * (1 + s.get_margin_for_item group item_margin_override / 100))

/-- Embeds MarginSettings.calculate_purchase_price:
round(selling / (1 + margin/100), 2). -/
def MarginSettings.calculate_purchase_price (s : MarginSettings) (selling_price : ℚ)
    (group : Option String) (item_margin_override : Option ℚ) : ℚ :=
  pyRound2 (selling_price / (1 + s.get_margin_for_item group item_margin_override / 100))

/-- Embeds the CostItem dataclass of app/models/cost_item.py. -/
structure CostItem where
  name : String
  quantity : ℚ
  unit : String
  price_unit_net : ℚ
  vat_rate : ℤ
  category : String
  note : String
  group : String
  margin_percent : Option ℚ
  purchase_price : Option ℚ
  total_net : ℚ
  vat_value : ℚ
  total_gross : ℚ
deriving DecidableEq

/-- Embeds CostItem.calculate_totals: recomputes the three derived
fields in place with the Python built-in round. -/
def CostItem.calculate_totals (it : CostItem) : CostItem :=
  let tn := pyRound2 (it.quantity * it.price_unit_net)
  let vv := pyRound2 (tn * (it.vat_rate : ℚ) / 100)
  { it with total_net := tn, vat_value := vv, total_gross := pyRound2 (tn + vv) }

/-- One iteration of the MarginCalculator.apply_margin_to_items loop:
when a purchase price is set, the attribute assignment overwrites
price_unit_net with the computed selling price; calculate_totals is then
invoked on the item (CostItem always has the group and margin_percent
attributes, so the hasattr guards pass). -/
def applyMarginStep (s : MarginSettings) (item : CostItem) : CostItem :=
  let item1 :=
    match item.purchase_price with
    | some pp =>
      { item with price_unit_net := s.calculate_selling_price pp (some item.group) item.margin_percent }
    | none => item
  item1.calculate_totals

/-- Embeds MarginCalculator.apply_margin_to_items. The Python loop
assigns attributes on the objects of the caller-supplied list and
returns that same list, so the value returned here is at the same time
the post-call state of the caller's items: the call works in place. -/
def apply_margin_to_items (s : MarginSettings) (items : List CostItem) : List CostItem :=
  items.map (applyMarginStep s)

/-- Embeds roof_calculations.degrees_to_radians (math.radians). -/
noncomputable def degrees_to_radians (degrees : ℝ) : ℝ :=
  degrees * Real.pi / 180

/-- Result of calculate_slant_length: either the float value inf or a
finite length. -/
inductive SlantResult where
  | inf
  | val (x : ℝ)

/-- Embeds roof_calculations.calculate_slant_length: an exact angle of
90 or an exact zero cosine produces the sentinel inf without dividing;
an exact angle of 0 returns the horizontal length unchanged; every other
angle divides by its cosine. -/
noncomputable def calculate_slant_length (horizontal_length : ℝ) (angle_degrees : ℝ) : SlantResult :=
  if angle_degrees = 90 then .inf
  else if angle_degrees = 0 then .val horizontal_length
  else if Real.cos (degrees_to_radians angle_degrees) = 0 then .inf
  else .val (horizontal_length / Real.cos (degrees_to_radians angle_degrees))

/-- The results dict of the roof calculators. -/
structure RoofResults where
  dlugosc_okapu : ℝ
  dlugosc_gasiorow : ℝ
  dlugosc_wiatrownic : ℝ
  powierzchnia_dachu : ℝ
  dlugosc_koszy : ℝ
  slant_rafter_length : ℝ
  roof_angle_deg : ℝ

/-- Embeds roof_calculations.calculate_hip_roof for a supplied angle
(Python raises ValueError when the angle is None; the hip-roof branch
ignores is_real_dimensions). The eave length is computed from the
pre-swap dimensions; when the width exceeds the length the two are
swapped, the flat ridge projection is the difference of the two
dimensions and the hip-rafter horizontal projection is the diagonal of
a square whose side is half the post-swap width. The Python code leaves
inf values in the dict when a slant is infinite; that case is modelled
as none. The source computes the trapezoid and the triangle slants by
the same expression; both are taken here from the same second match
component. -/
noncomputable def calculate_hip_roof (dl szer : ℝ) (angle_degrees : ℝ) : Option RoofResults :=
  let horizontal_dl := dl
  let horizontal_szer := szer
  let swapped : ℝ × ℝ × ℝ :=
    if horizontal_szer ≤ horizontal_dl then
      (horizontal_dl - horizontal_szer, horizontal_dl, horizontal_szer)
    else
      (horizontal_szer - horizontal_dl, horizontal_szer, horizontal_dl)
  let kalenica_pozioma_dl_horizontal := swapped.1
  let hdl := swapped.2.1
  let hszer := swapped.2.2
  let hip_rafter_horizontal_proj := Real.sqrt ((hszer / 2) ^ 2 + (hszer / 2) ^ 2)
  match calculate_slant_length hip_rafter_horizontal_proj angle_degrees,
        calculate_slant_length (hszer / 2) angle_degrees with
  | .val slant_grzbiet_len, .val slant_krokiew_polac =>
    some { dlugosc_okapu := 2 * (horizontal_dl + horizontal_szer)
         , dlugosc_gasiorow := 4 * slant_grzbiet_len + kalenica_pozioma_dl_horizontal
         , dlugosc_wiatrownic := 0
         , powierzchnia_dachu := 2 * (1/2 * hszer * slant_krokiew_polac)
             + 2 * (1/2 * (kalenica_pozioma_dl_horizontal + hdl) * slant_krokiew_polac)
         , dlugosc_koszy := 0
         , slant_rafter_length := slant_krokiew_polac
         , roof_angle_deg := angle_degrees }
  | _, _ => none

/-- The results dict of gutter_calculations.calculate_guttering. -/
structure GutterResult where
  total_gutter_length_m : ℚ
  total_downpipe_length_m : ℚ
  num_downpipes : ℤ
  num_gutter_hooks : ℤ
  num_gutter_connectors : ℤ
  num_downpipe_outlets : ℤ
  num_downpipe_clamps : ℤ
  num_downpipe_elbows : ℤ
  num_end_caps : ℤ
deriving DecidableEq

/-- Embeds gutter_calculations.calculate_guttering: negative eave length
or height raise ValueError; a missing downpipe count is estimated as
ceil(eave/10) clamped to at least one when the eave is positive. -/
def calculate_guttering (okap_length_m roof_height_m : ℚ) (num_downpipes : Option ℤ) :
    Except String GutterResult :=
  if okap_length_m < 0 ∨ roof_height_m < 0 then
    .error "Długość okapu i wysokość dachu nie mogą być ujemne."
  else
    let total_gutter_length_m := okap_length_m
    let actual_num_downpipes : ℤ :=
      match num_downpipes with
      | none =>
        if 0 < okap_length_m then
          let estimated := ⌈okap_length_m / 10⌉
          if estimated < 1 then 1 else estimated
        else 0
      | some n => n
    if actual_num_downpipes < 0 then
      .error "Liczba rur spustowych nie może być ujemna."
    else
      let total_downpipe_length_m := (actual_num_downpipes : ℚ) * roof_height_m
      .ok
        { total_gutter_length_m := total_gutter_length_m
        , total_downpipe_length_m := total_downpipe_length_m
        , num_downpipes := actual_num_downpipes
        , num_gutter_hooks := if 0 < total_gutter_length_m then ⌈total_gutter_length_m / (1/2)⌉ else 0
        , num_gutter_connectors := max 0 (⌈total_gutter_length_m / 3⌉ - 1)
        , num_downpipe_outlets := actual_num_downpipes
        , num_downpipe_clamps := if 0 < total_downpipe_length_m then ⌈total_downpipe_length_m / 2⌉ else 0
        , num_downpipe_elbows := actual_num_downpipes * 2
        , num_end_caps := 2 }

/-- The results dict of chimney_calculations.calculate_chimney_flashings. -/
structure ChimneyFlashResult where
  total_metal_flashing_surface_m2 : ℚ
  num_metal_sheets_flashing : ℤ
  total_chimney_cap_surface_m2 : ℚ
  num_metal_sheets_cap : ℤ
  total_felt_flashing_surface_m2 : ℚ
  total_clamping_strip_length_m : ℚ
  single_chimney_perimeter : ℚ
deriving DecidableEq

/-- Embeds chimney_calculations.calculate_chimney_flashings: negative
dimensions or chimney count raise ValueError, an out-of-range angle
raises ValueError, any zero dimension yields the all-zero dict. -/
def calculate_chimney_flashings (width_m length_m height_above_roof_m roof_angle_deg : ℚ)
    (roof_covering_type : String) (num_chimneys : ℤ) : Except String ChimneyFlashResult :=
  if width_m < 0 ∨ length_m < 0 ∨ height_above_roof_m < 0 ∨ num_chimneys < 0 then
    .error "Wszystkie wymiary komina i liczba kominów nie mogą być ujemne."
  else if roof_angle_deg < 0 ∨ 90 < roof_angle_deg then
    .error "Kąt nachylenia dachu musi być w zakresie od 0 do 90 stopni."
  else if width_m = 0 ∨ length_m = 0 ∨ height_above_roof_m = 0 ∨ num_chimneys = 0 then
    .ok ⟨0, 0, 0, 0, 0, 0, 0⟩
  else
    let perimeter := 2 * (width_m + length_m)
    let lower_flashing_surface_m2 := perimeter * (1/2)
    let side_flashing_height_with_overlap := height_above_roof_m + 20/100
    let cladding_surface_m2 := perimeter * side_flashing_height_with_overlap
    let cap_width_with_overlap := width_m + 2 * (5/100)
    let cap_length_with_overlap := length_m + 2 * (5/100)
    let chimney_cap_surface_m2 := cap_width_with_overlap * cap_length_with_overlap
    let felt_flashing_surface_m2 := perimeter * (1/2)
    let clamping_strip_length_m := perimeter
    let total_lower_flashing_surface_m2 := lower_flashing_surface_m2 * (num_chimneys : ℚ)
    let total_cladding_surface_m2 := cladding_surface_m2 * (num_chimneys : ℚ)
    let total_chimney_cap_surface_m2 := chimney_cap_surface_m2 * (num_chimneys : ℚ)
    let total_felt_flashing_surface_m2 := felt_flashing_surface_m2 * (num_chimneys : ℚ)
    let total_clamping_strip_length_m := clamping_strip_length_m * (num_chimneys : ℚ)
    let sheet_area : ℚ := (125/100) * (250/100)
    let total_metal_flashing_surface_m2 := total_lower_flashing_surface_m2 + total_cladding_surface_m2
    let felt0 := roof_covering_type = "blacha" ∨ roof_covering_type = "dachówka"
    .ok
      { total_metal_flashing_surface_m2 := total_metal_flashing_surface_m2
      , num_metal_sheets_flashing := ⌈total_metal_flashing_surface_m2 / sheet_area⌉
      , total_chimney_cap_surface_m2 := total_chimney_cap_surface_m2
      , num_metal_sheets_cap := ⌈total_chimney_cap_surface_m2 / sheet_area⌉
      , total_felt_flashing_surface_m2 := if felt0 then 0 else total_felt_flashing_surface_m2
      , total_clamping_strip_length_m := if felt0 then 0 else total_clamping_strip_length_m
      , single_chimney_perimeter := perimeter }

/-- The results dict of chimney_calculations.calculate_chimney_insulation. -/
structure ChimneyInsulResult where
  total_insulation_surface_m2 : ℚ
  total_mesh_surface_m2 : ℚ
deriving DecidableEq

/-- Embeds chimney_calculations.calculate_chimney_insulation: any
non-positive dimension or chimney count yields the all-zero dict — this
calculator never raises. -/
def calculate_chimney_insulation (width_m length_m height_above_roof_m : ℚ)
    (num_chimneys : ℤ) : ChimneyInsulResult :=
  if width_m ≤ 0 ∨ length_m ≤ 0 ∨ height_above_roof_m ≤ 0 ∨ num_chimneys ≤ 0 then
    ⟨0, 0⟩
  else
    let single_chimney_side_surface := 2 * (width_m + length_m) * height_above_roof_m
    let total_insulation_surface_m2 := single_chimney_side_surface * (num_chimneys : ℚ)
    ⟨total_insulation_surface_m2, total_insulation_surface_m2⟩

/-- One entry of the flashing_items dict of calculate_flashings_total. -/
structure FlashItem where
  selected : Bool
  length : ℚ
  width : ℚ
deriving DecidableEq

/-- The result dict of calculate_flashings_total. -/
structure FlashTotal where
  total_surface_m2 : ℚ
  num_sheets : ℤ
deriving DecidableEq

/-- The accumulation loop of calculate_flashings_total: sums the areas
of the selected entries and raises ValueError at the first selected
entry with a negative dimension. -/
def flashSurface : List (String × FlashItem) → ℚ → Except String ℚ
  | [], acc => .ok acc
  | (nm, d) :: t, acc =>
    if d.selected then
      if d.length < 0 ∨ d.width < 0 then
        .error ("Długość i szerokość obróbki " ++ nm ++ " nie mogą być ujemne.")
      else flashSurface t (acc + d.length * d.width)
    else flashSurface t acc

/-- Embeds flashing_calculations.calculate_flashings_total. -/
def calculate_flashings_total (flashing_items : List (String × FlashItem))
    (standard_sheet_width standard_sheet_length : ℚ) : Except String FlashTotal :=
  let standard_sheet_area := standard_sheet_width * standard_sheet_length
  match flashSurface flashing_items 0 with
  | .error e => .error e
  | .ok total_flashing_surface =>
    .ok ⟨total_flashing_surface,
         if 0 < total_flashing_surface then ⌈total_flashing_surface / standard_sheet_area⌉ else 0⟩

/-- The results dict of felt_calculations.calculate_felt_roof. -/
structure FeltResult where
  total_top_felt_m2 : ℚ
  total_underlay_felt_m2 : ℚ
  decking_m2 : ℚ
  osb_m2 : ℚ
  concrete_topping_m3 : ℚ
  primer_liters : ℚ
  firewall_osb_m2 : ℚ
  firewall_felt_m2 : ℚ
deriving DecidableEq

/-- Embeds felt_calculations.calculate_felt_roof: only a negative main
roof surface raises ValueError; an all-zero input yields the zero dict. -/
def calculate_felt_roof (roof_surface_m2 : ℚ) (roof_type : String)
    ( is_tear_off is_decking is_osb_on_battens is_concrete : Bool)
    (chimney_felt_surface_m2 firewall_length_m firewall_height_m firewall_thickness_m : ℚ) :
    Except String FeltResult :=
  if roof_surface_m2 < 0 then
    .error "Powierzchnia dachu nie może być ujemna."
  else if roof_surface_m2 = 0 ∧ chimney_felt_surface_m2 = 0 ∧ firewall_length_m = 0 then
    .ok ⟨0, 0, 0, 0, 0, 0, 0, 0⟩
  else
    let felt_waste_factor : ℚ :=
      if roof_type = "jednospadowy" ∨ roof_type = "dwuspadowy" then 115/100 else 118/100
    let top0 := roof_surface_m2 * felt_waste_factor
    let underlay0 := if is_concrete then 0 else roof_surface_m2 * felt_waste_factor
    let decking_m2 : ℚ :=
      if is_tear_off then (if is_decking then roof_surface_m2 * (30/100) else 0)
      else (if is_decking then roof_surface_m2 else 0)
    let osb_m2 : ℚ :=
      if is_tear_off then 0
      else if is_decking then 0
      else if is_osb_on_battens then roof_surface_m2 else 0
    let concrete_topping_m3 : ℚ :=
      if is_tear_off ∧ ¬ is_decking ∧ is_concrete then roof_surface_m2 * (20/100) * (3/100) else 0
    let primer_liters : ℚ :=
      if is_tear_off then
        (if ¬ is_decking ∧ is_concrete then roof_surface_m2 * (2/10) else 0)
      else
        (if ¬ is_decking ∧ ¬ is_osb_on_battens ∧ is_concrete then roof_surface_m2 * (2/10) else 0)
    let fw := 0 < firewall_length_m ∧ 0 < firewall_height_m ∧ 0 < firewall_thickness_m
    let firewall_osb_m2 : ℚ := if fw then firewall_length_m * firewall_height_m * 2 else 0
    let firewall_felt_m2 : ℚ :=
      if fw then firewall_length_m * (2 * firewall_height_m + firewall_thickness_m + 15/100) else 0
    let total_top_felt_m2 := top0 + chimney_felt_surface_m2 + firewall_felt_m2
    let total_underlay_felt_m2 :=
      if 0 < underlay0 then underlay0 + chimney_felt_surface_m2 + firewall_felt_m2 else underlay0
    .ok
      { total_top_felt_m2 := total_top_felt_m2
      , total_underlay_felt_m2 := total_underlay_felt_m2
      , decking_m2 := decking_m2
      , osb_m2 := osb_m2
      , concrete_topping_m3 := concrete_topping_m3
      , primer_liters := primer_liters
      , firewall_osb_m2 := firewall_osb_m2
      , firewall_felt_m2 := firewall_felt_m2 }

/-- Embeds timber_calculations.calculate_timber_volume: any negative
input raises ValueError, else volume in cubic meters. -/
def calculate_timber_volume (quantity : ℤ) (length_m width_cm height_cm : ℚ) :
    Except String ℚ :=
  if quantity < 0 ∨ length_m < 0 ∨ width_cm < 0 ∨ height_cm < 0 then
    .error "Wartości dla ilości, długości i wymiarów przekroju nie mogą być ujemne."
  else
    .ok ((quantity : ℚ) * length_m * (width_cm / 100) * (height_cm / 100))

/-- A rational that is a whole number of cents (an exact multiple of
1/100): the shape of every value produced by round2. -/
def Cent (x : ℚ) : Prop :=
  ∃ k : ℤ, x = (k : ℚ) / 100

/-- A bucket whose three components are whole numbers of cents. -/
def CentS (s : Sums) : Prop :=
  Cent s.net ∧ Cent s.vat ∧ Cent s.gross

/-- Invariant of the compute_totals item loop: both accumulators sum to
the running totals, and every accumulated quantity is a whole number of
cents. -/
def AggInv (st : AggState) : Prop :=
  sumVals st.by_vat = ⟨st.total_net, st.total_vat, st.total_gross⟩ ∧
  sumVals st.by_cat = ⟨st.total_net, st.total_vat, st.total_gross⟩ ∧
  (∀ p ∈ st.by_vat, CentS p.2) ∧
  (∀ p ∈ st.by_cat, CentS p.2) ∧
  Cent st.total_net ∧ Cent st.total_vat ∧ Cent st.total_gross

theorem hazRound_abs_le (x : ℚ) : |((hazRound x : ℤ) : ℚ) - x| ≤ 1/2 := by
  unfold hazRound
  by_cases h : 0 ≤ x
  · rw [if_pos h]
    have h1 : ((⌊x + 1/2⌋ : ℤ) : ℚ) ≤ x + 1/2 := Int.floor_le _
    have h2 : x + 1/2 - 1 < ((⌊x + 1/2⌋ : ℤ) : ℚ) := Int.sub_one_lt_floor _
    rw [abs_le]
    constructor <;> linarith
  · rw [if_neg h]
    have h1 : ((⌊-x + 1/2⌋ : ℤ) : ℚ) ≤ -x + 1/2 := Int.floor_le _
    have h2 : -x + 1/2 - 1 < ((⌊-x + 1/2⌋ : ℤ) : ℚ) := Int.sub_one_lt_floor _
    rw [abs_le]
    push_cast
    constructor <;> linarith

theorem round2_abs_le (x : ℚ) : |round2 x - x| ≤ 1/200 := by
  have h := hazRound_abs_le (x * 100)
  have he : round2 x - x = (((hazRound (x * 100) : ℤ) : ℚ) - x * 100) / 100 := by
    unfold round2; ring
  rw [he, abs_div]
  have h100 : |(100 : ℚ)| = 100 := by norm_num
  rw [h100, div_le_iff (by norm_num : (0:ℚ) < 100)]
  linarith

theorem cent_round2 (x : ℚ) : Cent (round2 x) :=
  ⟨hazRound (x * 100), rfl⟩

theorem cent_zero : Cent 0 :=
  ⟨0, by norm_num⟩

theorem cent_add {a b : ℚ} (ha : Cent a) (hb : Cent b) : Cent (a + b) := by
  obtain ⟨k, rfl⟩ := ha
  obtain ⟨m, rfl⟩ := hb
  exact ⟨k + m, by push_cast; ring⟩

theorem hazRound_intCast (k : ℤ) : hazRound (k : ℚ) = k := by
  unfold hazRound
  have hh : ⌊(1/2 : ℚ)⌋ = 0 := by norm_num
  by_cases h : 0 ≤ (k : ℚ)
  · rw [if_pos h, Int.floor_int_add, hh, add_zero]
  · rw [if_neg h]
    have hcast : -(k : ℚ) + 1/2 = ((-k : ℤ) : ℚ) + 1/2 := by push_cast; ring
    rw [hcast, Int.floor_int_add, hh, add_zero, neg_neg]

theorem round2_cent_id {x : ℚ} (hx : Cent x) : round2 x = x := by
  obtain ⟨k, rfl⟩ := hx
  unfold round2
  have hk : (k : ℚ) / 100 * 100 = (k : ℚ) := by
    field_simp
  rw [hk, hazRound_intCast]

theorem round2_zero : round2 0 = 0 :=
  round2_cent_id cent_zero

theorem round2_add_sub_bound (a b : ℚ) :
    |round2 (a + b) - (round2 a + round2 b)| ≤ 1/100 := by
  have h1 := round2_abs_le (a + b)
  have h2 := round2_abs_le a
  have h3 := round2_abs_le b
  have hc : Cent (round2 (a + b) - (round2 a + round2 b)) := by
    obtain ⟨k1, e1⟩ := cent_round2 (a + b)
    obtain ⟨k2, e2⟩ := cent_round2 a
    obtain ⟨k3, e3⟩ := cent_round2 b
    exact ⟨k1 - k2 - k3, by rw [e1, e2, e3]; push_cast; ring⟩
  obtain ⟨k, hk⟩ := hc
  have hb : |round2 (a + b) - (round2 a + round2 b)| ≤ 3/200 := by
    have he : round2 (a + b) - (round2 a + round2 b) =
        (round2 (a + b) - (a + b)) - (round2 a - a) - (round2 b - b) := by ring
    rw [he]
    calc |(round2 (a + b) - (a + b)) - (round2 a - a) - (round2 b - b)|
        ≤ |(round2 (a + b) - (a + b)) - (round2 a - a)| + |round2 b - b| := abs_sub _ _
      _ ≤ |round2 (a + b) - (a + b)| + |round2 a - a| + |round2 b - b| := by
          have := abs_sub (round2 (a + b) - (a + b)) (round2 a - a)
          linarith
      _ ≤ 3/200 := by linarith
  rw [hk] at hb ⊢
  have hkq : |(k : ℚ)| ≤ 3/2 := by
    rw [abs_div] at hb
    have : |(100:ℚ)| = 100 := by norm_num
    rw [this, div_le_iff (by norm_num : (0:ℚ) < 100)] at hb
    linarith
  have hk1 : |k| ≤ 1 := by
    have hlt : |(k : ℚ)| < 2 := lt_of_le_of_lt hkq (by norm_num)
    have hlt2 : |k| < 2 := by exact_mod_cast hlt
    omega
  rw [abs_div]
  have h100 : |(100:ℚ)| = 100 := by norm_num
  rw [h100, div_le_iff (by norm_num : (0:ℚ) < 100)]
  have hcst : |(k : ℚ)| ≤ 1 := by exact_mod_cast hk1
  linarith

/-- C1 counterexample: the item quantity 1, unit price 0.0049, VAT 23
has totalNet = 0.00, vatValue = 0.00 but totalGross = 0.01, so the
exact identity totalGross = totalNet + vatValue fails even though the
quantity and the unit price are non-negative and the VAT rate is 23. -/
theorem compute_item_gross_identity_counterexample :
    (compute_item ⟨.val "Pozycja", .val 1, .val (49/10000), .val 23, .val "material"⟩).total_gross ≠
      (compute_item ⟨.val "Pozycja", .val 1, .val (49/10000), .val 23, .val "material"⟩).total_net +
      (compute_item ⟨.val "Pozycja", .val 1, .val (49/10000), .val 23, .val "material"⟩).vat_value := by
  norm_num [compute_item, pyOr, PyField.get, PyField.getNone, round2, hazRound]

/-- C1 (amended): for every line item with a non-negative quantity, a
non-negative unit price and a VAT rate in 0, 8, 23, pricing the item
yields totalGross equal to totalNet + vatValue up to at most one cent
(each of the three fields independently rounded half away from zero to
two decimal places), and the one-cent slack can actually occur. -/
theorem compute_item_gross_identity_within_cent (item : ItemIn) (q p : ℚ) (v : ℤ)
    (hq : item.quantity = .val q) (hq0 : 0 ≤ q)
    (hp : item.price_unit_net = .val p) (hp0 : 0 ≤ p)
    (hv : item.vat_rate = .val v) (hvr : v = 0 ∨ v = 8 ∨ v = 23) :
    |(compute_item item).total_gross -
      ((compute_item item).total_net + (compute_item item).vat_value)| ≤ 1/100 := by
  simp only [compute_item]
  exact round2_add_sub_bound _ _

/-- Witness for C1 at quantity 120, price 35, VAT 23. -/
theorem compute_item_gross_identity_within_cent_witness :
    |(compute_item ⟨.val "Papa", .val 120, .val 35, .val 23, .val "material"⟩).total_gross -
      ((compute_item ⟨.val "Papa", .val 120, .val 35, .val 23, .val "material"⟩).total_net +
       (compute_item ⟨.val "Papa", .val 120, .val 35, .val 23, .val "material"⟩).vat_value)| ≤ 1/100 :=
  compute_item_gross_identity_within_cent _ 120 35 23 rfl (by norm_num) rfl (by norm_num) rfl
    (Or.inr (Or.inr rfl))

/-- C10: line-item pricing substitutes defaults instead of failing: a
missing or null quantity or unit price is treated as 0, a missing
vat_rate defaults to 23 while an explicitly-null vat_rate becomes 0,
and a missing or null category defaults to material; a present nonempty
category is lowercased in the returned item. -/
theorem compute_item_defaults (item : ItemIn) :
    ((item.quantity = .absent ∨ item.quantity = .null) → (compute_item item).quantity = 0) ∧
    ((item.price_unit_net = .absent ∨ item.price_unit_net = .null) →
      (compute_item item).price_unit_net = 0) ∧
    (item.vat_rate = .absent → (compute_item item).vat_rate = 23) ∧
    (item.vat_rate = .null → (compute_item item).vat_rate = 0) ∧
    ((item.category = .absent ∨ item.category = .null) → (compute_item item).category = "material") ∧
    (∀ s, item.category = .val s → s ≠ "" → (compute_item item).category = pyLower s) := by
  refine ⟨?_, ?_, ?_, ?_, ?_, ?_⟩
  · rintro (h | h) <;> simp [compute_item, h, pyOr, PyField.get]
  · rintro (h | h) <;> simp [compute_item, h, pyOr, PyField.get, round2_zero]
  · intro h; simp [compute_item, h, pyOr, PyField.get]
  · intro h; simp [compute_item, h, pyOr, PyField.get]
  · rintro (h | h) <;> simp [compute_item, h, pyOr, PyField.getNone] <;> decide
  · intro s h hs; simp [compute_item, h, pyOr, PyField.getNone, hs]

/-- Witness for C10: an all-absent item resolves to quantity 0, price 0,
VAT 23 and category material, and a null vat_rate resolves to 0. -/
theorem compute_item_defaults_witness :
    (compute_item ⟨.absent, .absent, .absent, .absent, .absent⟩).quantity = 0 ∧
    (compute_item ⟨.absent, .absent, .absent, .absent, .absent⟩).price_unit_net = 0 ∧
    (compute_item ⟨.absent, .absent, .absent, .absent, .absent⟩).vat_rate = 23 ∧
    (compute_item ⟨.absent, .absent, .absent, .absent, .absent⟩).category = "material" ∧
    (compute_item ⟨.absent, .absent, .absent, .null, .absent⟩).vat_rate = 0 := by
  have h1 := compute_item_defaults ⟨.absent, .absent, .absent, .absent, .absent⟩
  have h2 := compute_item_defaults ⟨.absent, .absent, .absent, .null, .absent⟩
  exact ⟨h1.1 (Or.inl rfl), h1.2.1 (Or.inl rfl), h1.2.2.1 rfl,
    h1.2.2.2.2.1 (Or.inl rfl), h2.2.2.2.1 rfl⟩

/-- C7 counterexample: an item with a negative quantity is priced by
compute_item without any error: line-item pricing computes a negative
net total of -10.00 (and its VAT and gross) instead of reporting
InvalidInput and refusing to price the item. -/
theorem compute_item_prices_invalid_counterexample :
    (compute_item ⟨.val "Papa", .val (-1), .val 10, .val 23, .val "material"⟩).total_net = -10 ∧
    (compute_item ⟨.val "Papa", .val (-1), .val 10, .val 23, .val "material"⟩).total_gross = -123/10 := by
  constructor <;>
    norm_num [compute_item, pyOr, PyField.get, PyField.getNone, round2, hazRound]

/-- C7 (amended): compute_item itself never validates and prices any
item; validation is the separate helper validate_cost_item, which for a
named item with numeric fields reports the item valid exactly when the
quantity and unit price are non-negative and the VAT rate is one of 0,
8, 23 — it never clamps a value. -/
theorem validate_cost_item_flags_invalid (nm : String) (q p : ℚ) (v : ℤ) (hnm : nm ≠ "") :
    (validate_cost_item ⟨.val nm, .val q, .val p, .val v, .absent⟩).1 = true ↔
      (0 ≤ q ∧ 0 ≤ p ∧ (v = 0 ∨ v = 8 ∨ v = 23)) := by
  simp only [validate_cost_item, PyField.getNone, PyField.get]
  rw [if_neg hnm]
  by_cases hq : q < 0
  · simp [hq, not_le.mpr hq]
  · rw [if_neg hq]
    by_cases hp : p < 0
    · simp [hp, not_le.mpr hp]
    · rw [if_neg hp]
      by_cases hv : v = 0 ∨ v = 8 ∨ v = 23
      · simp [hv, not_lt.mp hq, not_lt.mp hp]
      · simp [hv]

/-- Witness for C7: a valid item passes validation, an item with
negative quantity fails it. -/
theorem validate_cost_item_flags_invalid_witness :
    (validate_cost_item ⟨.val "Papa", .val 1, .val 2, .val 23, .absent⟩).1 = true ∧
    (validate_cost_item ⟨.val "Papa", .val (-1), .val 2, .val 23, .absent⟩).1 ≠ true := by
  constructor
  · exact (validate_cost_item_flags_invalid "Papa" 1 2 23 (by decide)).mpr
      ⟨by norm_num, by norm_num, Or.inr (Or.inr rfl)⟩
  · intro hcon
    have h := (validate_cost_item_flags_invalid "Papa" (-1) 2 23 (by decide)).mp hcon
    norm_num at h

theorem sumVals_nil {K : Type} : sumVals ([] : List (K × Sums)) = ⟨0, 0, 0⟩ :=
  rfl

theorem sumVals_cons {K : Type} (p : K × Sums) (t : List (K × Sums)) :
    sumVals (p :: t) = p.2.add (sumVals t) :=
  rfl

theorem Sums.zero_add_law (s : Sums) : (Sums.mk 0 0 0).add s = s := by
  cases s
  simp only [Sums.add, Sums.mk.injEq]
  refine ⟨by ring, by ring, by ring⟩

theorem Sums.add_zero_law (s : Sums) : s.add ⟨0, 0, 0⟩ = s := by
  cases s
  simp only [Sums.add, Sums.mk.injEq]
  refine ⟨by ring, by ring, by ring⟩

theorem Sums.add_assoc_law (a b c : Sums) : (a.add b).add c = a.add (b.add c) := by
  cases a; cases b; cases c
  simp only [Sums.add, Sums.mk.injEq]
  refine ⟨by ring, by ring, by ring⟩

theorem Sums.add_right_comm_law (a b c : Sums) : (a.add b).add c = (a.add c).add b := by
  cases a; cases b; cases c
  simp only [Sums.add, Sums.mk.injEq]
  refine ⟨by ring, by ring, by ring⟩

theorem centS_add {a b : Sums} (ha : CentS a) (hb : CentS b) : CentS (a.add b) :=
  ⟨cent_add ha.1 hb.1, cent_add ha.2.1 hb.2.1, cent_add ha.2.2 hb.2.2⟩

theorem roundSums_cent_id {s : Sums} (h : CentS s) : roundSums s = s := by
  cases s
  obtain ⟨h1, h2, h3⟩ := h
  simp only [roundSums, Sums.mk.injEq]
  exact ⟨round2_cent_id h1, round2_cent_id h2, round2_cent_id h3⟩

theorem sumVals_bump {K : Type} [DecidableEq K] (l : List (K × Sums)) (k : K) (s : Sums) :
    sumVals (bump l k s) = (sumVals l).add s := by
  induction l with
  | nil =>
    show sumVals [(k, s)] = (sumVals []).add s
    rw [sumVals_cons, sumVals_nil, Sums.add_zero_law, Sums.zero_add_law]
  | cons hd t ih =>
    obtain ⟨k2, s2⟩ := hd
    by_cases h : k2 = k
    · simp only [bump, if_pos h, sumVals_cons]
      exact Sums.add_right_comm_law s2 s (sumVals t)
    · simp only [bump, if_neg h, sumVals_cons, ih]
      exact (Sums.add_assoc_law s2 (sumVals t) s).symm

theorem bump_mem_centS {K : Type} [DecidableEq K] {l : List (K × Sums)} {k : K} {s : Sums}
    (hl : ∀ p ∈ l, CentS p.2) (hs : CentS s) : ∀ p ∈ bump l k s, CentS p.2 := by
  induction l with
  | nil =>
    intro p hp
    simp only [bump, List.mem_singleton] at hp
    subst hp
    exact hs
  | cons hd t ih =>
    obtain ⟨k2, s2⟩ := hd
    have hs2 : CentS s2 := hl (k2, s2) (List.mem_cons_self _ _)
    have ht : ∀ p ∈ t, CentS p.2 := fun p hp => hl p (List.mem_cons_of_mem _ hp)
    intro p hp
    by_cases h : k2 = k
    · simp only [bump, if_pos h, List.mem_cons] at hp
      rcases hp with rfl | hp
      · exact centS_add hs2 hs
      · exact ht p hp
    · simp only [bump, if_neg h, List.mem_cons] at hp
      rcases hp with rfl | hp
      · exact hs2
      · exact ih ht p hp

theorem lookupSums_bump_self {K : Type} [DecidableEq K] (l : List (K × Sums)) (k : K) (s : Sums) :
    lookupSums (bump l k s) k = some (((lookupSums l k).getD ⟨0, 0, 0⟩).add s) := by
  induction l with
  | nil =>
    show lookupSums [(k, s)] k = _
    simp [lookupSums, Sums.zero_add_law]
  | cons hd t ih =>
    obtain ⟨k2, s2⟩ := hd
    by_cases h : k2 = k
    · simp only [bump, if_pos h, lookupSums, Option.getD_some]
    · simp only [bump, if_neg h, lookupSums, ih]

theorem map_roundSums_id {K : Type} {l : List (K × Sums)} (h : ∀ p ∈ l, CentS p.2) :
    l.map (fun p => (p.1, roundSums p.2)) = l := by
  induction l with
  | nil => rfl
  | cons hd t ih =>
    have hhd : CentS hd.2 := h hd (List.mem_cons_self _ _)
    have ht : ∀ p ∈ t, CentS p.2 := fun p hp => h p (List.mem_cons_of_mem _ hp)
    simp only [List.map_cons, roundSums_cent_id hhd, ih ht]

theorem compute_item_cent (it : ItemIn) :
    Cent (compute_item it).total_net ∧ Cent (compute_item it).vat_value ∧
      Cent (compute_item it).total_gross := by
  refine ⟨?_, ?_, ?_⟩ <;> simp only [compute_item] <;> exact cent_round2 _

theorem aggInv_step (st : AggState) (it : ItemIn) (h : AggInv st) : AggInv (aggStep st it) := by
  obtain ⟨hv, hc, hvm, hcm, hn, hva, hg⟩ := h
  obtain ⟨e1, e2, e3⟩ := compute_item_cent it
  have hcs : CentS ⟨(compute_item it).total_net, (compute_item it).vat_value,
      (compute_item it).total_gross⟩ := ⟨e1, e2, e3⟩
  refine ⟨?_, ?_, ?_, ?_, cent_add hn e1, cent_add hva e2, cent_add hg e3⟩
  · simp only [aggStep, sumVals_bump, hv, Sums.add]
  · simp only [aggStep, sumVals_bump, hc, Sums.add]
  · simp only [aggStep]
    exact bump_mem_centS hvm hcs
  · simp only [aggStep]
    exact bump_mem_centS hcm hcs

theorem foldl_aggInv (items : List ItemIn) (st : AggState) (h : AggInv st) :
    AggInv (items.foldl aggStep st) := by
  induction items generalizing st with
  | nil => exact h
  | cons it t ih => exact ih _ (aggInv_step st it h)

theorem aggregate_inv (items : List ItemIn) : AggInv (aggregate items) := by
  refine foldl_aggInv items _ ⟨rfl, rfl, ?_, ?_, cent_zero, cent_zero, cent_zero⟩ <;>
    intro p hp <;> simp at hp

theorem transportTriple_cent (n tp : ℚ) (tv : ℤ) :
    Cent (transportTriple n tp tv).1 ∧ Cent (transportTriple n tp tv).2.1 ∧
      Cent (transportTriple n tp tv).2.2 := by
  simp only [transportTriple]
  by_cases h : 0 < tp ∧ 0 < n
  · rw [if_pos h]
    refine ⟨cent_round2 _, ?_, cent_round2 _⟩
    by_cases htv : tv ≠ 0
    · simp only [if_pos htv]
      exact cent_round2 _
    · simp only [if_neg htv]
      exact cent_zero
  · rw [if_neg h]
    exact ⟨cent_zero, cent_zero, cent_zero⟩

theorem transportTriple_zero {n tp : ℚ} {tv : ℤ} (h : (transportTriple n tp tv).1 = 0) :
    transportTriple n tp tv = (0, 0, 0) := by
  by_cases hc : 0 < tp ∧ 0 < n
  · simp only [transportTriple, if_pos hc] at h ⊢
    rw [h]
    norm_num [round2_zero]
  · simp only [transportTriple, if_neg hc]

/-- C3: for every item list and every transport configuration, the
summary net, vat and gross each equal the sum of the corresponding
fields over all byVatRate buckets (transport included), and the
byCategory buckets sum to the same net, vat and gross totals as the
byVatRate buckets. -/
theorem compute_totals_sum_invariant (items : List ItemIn) (tp : ℚ) (tv : ℤ) :
    (compute_totals items tp tv).summary = sumVals (compute_totals items tp tv).by_vat ∧
    sumVals (compute_totals items tp tv).by_category = sumVals (compute_totals items tp tv).by_vat := by
  obtain ⟨hv, hc, hvm, hcm, hn, hva, hg⟩ := aggregate_inv items
  obtain ⟨c1, c2, c3⟩ := transportTriple_cent (aggregate items).total_net tp tv
  simp only [compute_totals]
  set st := aggregate items with hst
  set t := transportTriple st.total_net tp tv with ht
  have htb : CentS ⟨t.1, t.2.1, t.2.2⟩ := ⟨c1, c2, c3⟩
  have hbv1 : ∀ p ∈ (if t.1 ≠ 0 then bump st.by_vat tv ⟨t.1, t.2.1, t.2.2⟩ else st.by_vat),
      CentS p.2 := by
    split
    · exact bump_mem_centS hvm htb
    · exact hvm
  have hbc1 : ∀ p ∈ (if t.1 ≠ 0 then bump st.by_cat "service" ⟨t.1, t.2.1, t.2.2⟩ else st.by_cat),
      CentS p.2 := by
    split
    · exact bump_mem_centS hcm htb
    · exact hcm
  have hsumv : sumVals (if t.1 ≠ 0 then bump st.by_vat tv ⟨t.1, t.2.1, t.2.2⟩ else st.by_vat) =
      (sumVals st.by_vat).add ⟨t.1, t.2.1, t.2.2⟩ := by
    by_cases h : t.1 ≠ 0
    · rw [if_pos h, sumVals_bump]
    · push_neg at h
      have h0 : t = (0, 0, 0) := transportTriple_zero (ht ▸ h)
      rw [if_neg (by simpa using h), h0]
      exact (Sums.add_zero_law _).symm
  have hsumc : sumVals (if t.1 ≠ 0 then bump st.by_cat "service" ⟨t.1, t.2.1, t.2.2⟩ else st.by_cat) =
      (sumVals st.by_cat).add ⟨t.1, t.2.1, t.2.2⟩ := by
    by_cases h : t.1 ≠ 0
    · rw [if_pos h, sumVals_bump]
    · push_neg at h
      have h0 : t = (0, 0, 0) := transportTriple_zero (ht ▸ h)
      rw [if_neg (by simpa using h), h0]
      exact (Sums.add_zero_law _).symm
  rw [map_roundSums_id hbv1, map_roundSums_id hbc1, hsumv, hsumc, hv, hc]
  have e1 : round2 (round2 (st.total_net + t.1)) = st.total_net + t.1 := by
    rw [round2_cent_id (cent_add hn c1), round2_cent_id (cent_add hn c1)]
  have e2 : round2 (round2 (st.total_vat + t.2.1)) = st.total_vat + t.2.1 := by
    rw [round2_cent_id (cent_add hva c2), round2_cent_id (cent_add hva c2)]
  have e3 : round2 (round2 (st.total_gross + t.2.2)) = st.total_gross + t.2.2 := by
    rw [round2_cent_id (cent_add hg c3), round2_cent_id (cent_add hg c3)]
  constructor
  · simp only [Sums.add, e1, e2, e3]
  · simp only [Sums.add]

theorem foldl_total_net (items : List ItemIn) (st : AggState) :
    (items.foldl aggStep st).total_net =
      st.total_net + (items.map (fun it => (compute_item it).total_net)).sum := by
  induction items generalizing st with
  | nil => simp
  | cons it t ih =>
    rw [List.foldl_cons, ih]
    simp only [aggStep, List.map_cons, List.sum_cons]
    ring

theorem aggregate_total_net (items : List ItemIn) :
    (aggregate items).total_net = (items.map (fun it => (compute_item it).total_net)).sum := by
  rw [aggregate, foldl_total_net]
  norm_num

/-- C4 (amended): for every item list whose computed nets sum to a
positive amount and every positive transportPercent for which the
rounded transport net is nonzero, aggregation computes the transport
line as net = round2(sum of item nets times transportPercent/100),
applies VAT at transportVatRate to get its vat and gross, and folds the
transport triple into both the byVatRate bucket of transportVatRate and
the synthetic service category bucket. -/
theorem compute_totals_transport_line (items : List ItemIn) (tp : ℚ) (tv : ℤ)
    (htp : 0 < tp)
    (hS : 0 < (items.map (fun it => (compute_item it).total_net)).sum)
    (hnz : round2 ((items.map (fun it => (compute_item it).total_net)).sum * (tp / 100)) ≠ 0) :
    (compute_totals items tp tv).transport.net =
      round2 ((items.map (fun it => (compute_item it).total_net)).sum * (tp / 100)) ∧
    (compute_totals items tp tv).transport.vat =
      round2 ((compute_totals items tp tv).transport.net * (tv : ℚ) / 100) ∧
    (compute_totals items tp tv).transport.gross =
      round2 ((compute_totals items tp tv).transport.net + (compute_totals items tp tv).transport.vat) ∧
    lookupSums (compute_totals items tp tv).by_vat tv =
      some (((lookupSums (aggregate items).by_vat tv).getD ⟨0, 0, 0⟩).add
        ⟨(compute_totals items tp tv).transport.net, (compute_totals items tp tv).transport.vat,
         (compute_totals items tp tv).transport.gross⟩) ∧
    lookupSums (compute_totals items tp tv).by_category "service" =
      some (((lookupSums (aggregate items).by_cat "service").getD ⟨0, 0, 0⟩).add
        ⟨(compute_totals items tp tv).transport.net, (compute_totals items tp tv).transport.vat,
         (compute_totals items tp tv).transport.gross⟩) := by
  set S := (items.map (fun it => (compute_item it).total_net)).sum with hSdef
  have hagg : (aggregate items).total_net = S := aggregate_total_net items
  obtain ⟨hv, hc, hvm, hcm, hn, hva, hg⟩ := aggregate_inv items
  obtain ⟨c1, c2, c3⟩ := transportTriple_cent (aggregate items).total_net tp tv
  simp only [compute_totals]
  set st := aggregate items with hst
  have hcond : 0 < tp ∧ 0 < st.total_net := ⟨htp, by rw [hagg]; exact hS⟩
  have ht1 : (transportTriple st.total_net tp tv).1 = round2 (S * (tp / 100)) := by
    simp only [transportTriple, hagg, if_pos (show 0 < tp ∧ 0 < S from ⟨htp, hS⟩)]
  have ht2 : (transportTriple st.total_net tp tv).2.1 =
      round2 ((transportTriple st.total_net tp tv).1 * (tv : ℚ) / 100) := by
    simp only [transportTriple, if_pos hcond]
    by_cases htv : tv ≠ 0
    · rw [if_pos htv]
    · rw [if_neg htv]
      push_neg at htv
      rw [htv]
      simp [round2_zero]
  have ht3 : (transportTriple st.total_net tp tv).2.2 =
      round2 ((transportTriple st.total_net tp tv).1 + (transportTriple st.total_net tp tv).2.1) := by
    simp only [transportTriple, if_pos hcond]
  have hne : (transportTriple st.total_net tp tv).1 ≠ 0 := by
    rw [ht1]
    exact hnz
  have htb : CentS ⟨(transportTriple st.total_net tp tv).1, (transportTriple st.total_net tp tv).2.1,
      (transportTriple st.total_net tp tv).2.2⟩ := ⟨c1, c2, c3⟩
  rw [if_pos hne, if_pos hne, map_roundSums_id (bump_mem_centS hvm htb),
    map_roundSums_id (bump_mem_centS hcm htb), lookupSums_bump_self, lookupSums_bump_self]
  exact ⟨ht1, ht2, ht3, rfl, rfl⟩

/-- Witness for C4, the scenario with items whose nets sum to 4200.00,
transportPercent 3.0 and transportVat 23: the transport line is
net 126.00, vat 28.98, gross 154.98. -/
theorem compute_totals_transport_line_witness :
    (compute_totals [⟨.val "Roboty", .val 120, .val 35, .val 23, .val "service"⟩] 3 23).transport.net = 126 ∧
    (compute_totals [⟨.val "Roboty", .val 120, .val 35, .val 23, .val "service"⟩] 3 23).transport.vat = 2898/100 ∧
    (compute_totals [⟨.val "Roboty", .val 120, .val 35, .val 23, .val "service"⟩] 3 23).transport.gross = 15498/100 := by
  have hnet : (([⟨.val "Roboty", .val 120, .val 35, .val 23, .val "service"⟩] :
      List ItemIn).map (fun it => (compute_item it).total_net)).sum = 4200 := by
    norm_num [compute_item, pyOr, PyField.get, round2, hazRound]
  have h := compute_totals_transport_line
    [⟨.val "Roboty", .val 120, .val 35, .val 23, .val "service"⟩] 3 23
    (by norm_num) (by rw [hnet]; norm_num)
    (by rw [hnet]; norm_num [round2, hazRound])
  obtain ⟨h1, h2, h3, _, _⟩ := h
  rw [hnet] at h1
  have e1 : (compute_totals [⟨.val "Roboty", .val 120, .val 35, .val 23, .val "service"⟩] 3 23).transport.net = 126 := by
    rw [h1]
    norm_num [round2, hazRound]
  refine ⟨e1, ?_, ?_⟩
  · rw [h2, e1]
    norm_num [round2, hazRound]
  · rw [h3, e1, h2, e1]
    norm_num [round2, hazRound]

/-- C4 counterexample: a non-empty item list with transportPercent 3
whose only item has net -100.00 gets a transport net of 0 from the
code (the transport block requires a positive net total), while the
claimed formula round2(sum of nets times percent/100) gives -3.00. -/
theorem compute_totals_transport_line_counterexample :
    (compute_totals [⟨.val "Korekta", .val 1, .val (-100), .val 23, .val "material"⟩] 3 23).transport.net ≠
      round2 ((([⟨.val "Korekta", .val 1, .val (-100), .val 23, .val "material"⟩] :
        List ItemIn).map (fun it => (compute_item it).total_net)).sum * (3 / 100)) := by
  have hnet : (([⟨.val "Korekta", .val 1, .val (-100), .val 23, .val "material"⟩] :
      List ItemIn).map (fun it => (compute_item it).total_net)).sum = -100 := by
    norm_num [compute_item, pyOr, PyField.get, round2, hazRound]
  have htr : (compute_totals [⟨.val "Korekta", .val 1, .val (-100), .val 23, .val "material"⟩]
      3 23).transport.net = 0 := by
    have hagg : (aggregate [⟨.val "Korekta", .val 1, .val (-100), .val 23,
        .val "material"⟩]).total_net = -100 := by
      rw [aggregate_total_net, hnet]
    simp only [compute_totals, transportTriple, hagg]
    norm_num
  rw [htr, hnet]
  norm_num [round2, hazRound]

theorem roundHalfEven_abs_le (x : ℚ) : |((roundHalfEven x : ℤ) : ℚ) - x| ≤ 1/2 := by
  have hf0 : 0 ≤ Int.fract x := Int.fract_nonneg x
  have hf1 : Int.fract x < 1 := Int.fract_lt_one x
  have hfl : ((⌊x⌋ : ℤ) : ℚ) = x - Int.fract x := by
    rw [Int.self_sub_fract]
  unfold roundHalfEven
  by_cases h1 : Int.fract x < 1/2
  · rw [if_pos h1, hfl, abs_le]
    constructor <;> linarith
  · rw [if_neg h1]
    by_cases h2 : 1/2 < Int.fract x
    · rw [if_pos h2]
      push_cast
      rw [hfl, abs_le]
      constructor <;> linarith
    · rw [if_neg h2]
      have heq : Int.fract x = 1/2 := le_antisymm (not_lt.mp h2) (not_lt.mp h1)
      by_cases h3 : ⌊x⌋ % 2 = 0
      · rw [if_pos h3, hfl, heq, abs_le]
        constructor <;> linarith
      · rw [if_neg h3]
        push_cast
        rw [hfl, heq, abs_le]
        constructor <;> linarith

theorem pyRound2_abs_le (x : ℚ) : |pyRound2 x - x| ≤ 1/200 := by
  have h := roundHalfEven_abs_le (x * 100)
  have he : pyRound2 x - x = (((roundHalfEven (x * 100) : ℤ) : ℚ) - x * 100) / 100 := by
    unfold pyRound2; ring
  rw [he, abs_div]
  have h100 : |(100 : ℚ)| = 100 := by norm_num
  rw [h100, div_le_iff (by norm_num : (0:ℚ) < 100)]
  linarith

theorem pyRound2_roundtrip {m : ℚ} (hm : 0 ≤ m) (p : ℚ) :
    |pyRound2 (pyRound2 (p * (1 + m/100)) / (1 + m/100)) - p| ≤ 1/100 := by
  have hmu : (1 : ℚ) ≤ 1 + m/100 := by linarith
  have hmu0 : (0 : ℚ) < 1 + m/100 := by linarith
  have h1 := pyRound2_abs_le (p * (1 + m/100))
  have h2 := pyRound2_abs_le (pyRound2 (p * (1 + m/100)) / (1 + m/100))
  set s := pyRound2 (p * (1 + m/100)) with hs
  set q := pyRound2 (s / (1 + m/100)) with hq
  have hsplit : q - p = (q - s / (1 + m/100)) + (s - p * (1 + m/100)) / (1 + m/100) := by
    field_simp
    ring
  have hdivle : |(s - p * (1 + m/100)) / (1 + m/100)| ≤ 1/200 := by
    rw [abs_div, abs_of_pos hmu0]
    calc |s - p * (1 + m/100)| / (1 + m/100) ≤ |s - p * (1 + m/100)| / 1 := by
          apply div_le_div_of_nonneg_left (abs_nonneg _) (by norm_num) hmu
      _ ≤ 1/200 := by rw [div_one]; exact h1
  calc |q - p| = |(q - s / (1 + m/100)) + (s - p * (1 + m/100)) / (1 + m/100)| := by rw [hsplit]
    _ ≤ |q - s / (1 + m/100)| + |(s - p * (1 + m/100)) / (1 + m/100)| := abs_add _ _
    _ ≤ 1/200 + 1/200 := by exact add_le_add h2 hdivle
    _ = 1/100 := by norm_num

/-- C8 (amended): for every non-negative purchase price and every
margin resolved by the same override hierarchy in both directions,
provided the resolved margin is non-negative, applying
calculate_selling_price and then calculate_purchase_price with the same
margin returns a value within 0.01 of the original purchase price. -/
theorem margin_roundtrip_within_cent (s : MarginSettings) (group : Option String)
    (item_margin_override : Option ℚ) (p : ℚ) (hp : 0 ≤ p)
    (hm : 0 ≤ s.get_margin_for_item group item_margin_override) :
    |s.calculate_purchase_price (s.calculate_selling_price p group item_margin_override)
        group item_margin_override - p| ≤ 1/100 := by
  simp only [MarginSettings.calculate_selling_price, MarginSettings.calculate_purchase_price]
  exact pyRound2_roundtrip hm p

/-- Witness for C8 at the default settings (global margin 20) and
purchase price 1. -/
theorem margin_roundtrip_within_cent_witness :
    |MarginSettings.calculate_purchase_price ⟨20, []⟩
        (MarginSettings.calculate_selling_price ⟨20, []⟩ 1 Option.none Option.none)
        Option.none Option.none - 1| ≤ 1/100 :=
  margin_roundtrip_within_cent ⟨20, []⟩ Option.none Option.none 1 (by norm_num)
    (by norm_num [MarginSettings.get_margin_for_item])

/-- C8 counterexample: with an item margin override of -90 percent the
round trip from purchase price 0.04 returns 0.00, an error of 0.04,
more than the claimed 0.01: the claim fails for negative margins. -/
theorem margin_roundtrip_counterexample :
    ¬ (|MarginSettings.calculate_purchase_price ⟨20, []⟩
        (MarginSettings.calculate_selling_price ⟨20, []⟩ (4/100) Option.none (some (-90)))
        Option.none (some (-90)) - 4/100| ≤ 1/100) := by
  have hsell : MarginSettings.calculate_selling_price ⟨20, []⟩ (4/100) Option.none (some (-90)) = 0 := by
    norm_num [MarginSettings.calculate_selling_price, MarginSettings.get_margin_for_item,
      pyRound2, roundHalfEven, Int.fract]
  rw [hsell]
  have hbuy : MarginSettings.calculate_purchase_price ⟨20, []⟩ 0 Option.none (some (-90)) = 0 := by
    norm_num [MarginSettings.calculate_purchase_price, MarginSettings.get_margin_for_item,
      pyRound2, roundHalfEven, Int.fract]
  rw [hbuy, zero_sub, abs_neg, abs_of_pos (by norm_num : (0:ℚ) < 4/100)]
  norm_num

/-- C9 counterexample: apply_margin_to_items does not leave the caller's
values unchanged. The Python loop assigns price_unit_net and the
recomputed totals directly on the objects of the caller's list and
returns that same list, so the caller's item (purchase price 100,
price_unit_net 0) is overwritten in place with selling price 120.00:
the post-call list differs from the pre-call list. -/
theorem apply_margin_mutates_counterexample :
    apply_margin_to_items ⟨20, []⟩
        [⟨"Membrana", 1, "szt", 0, 23, "material", "", "", Option.none, some 100, 0, 0, 0⟩] ≠
      [⟨"Membrana", 1, "szt", 0, 23, "material", "", "", Option.none, some 100, 0, 0, 0⟩] := by
  intro hcon
  have hfield := congrArg (fun l => (l.headD ⟨"", 0, "", 0, 0, "", "", "", Option.none, Option.none, 0, 0, 0⟩).price_unit_net) hcon
  simp only [apply_margin_to_items, applyMarginStep, CostItem.calculate_totals,
    MarginSettings.calculate_selling_price, MarginSettings.get_margin_for_item,
    List.map_cons, List.map_nil, List.headD_cons] at hfield
  norm_num [pyRound2, roundHalfEven, Int.fract] at hfield

/-- C9 (amended): compute_item returns a fresh augmented copy of its
input dict, but MarginCalculator.apply_margin_to_items updates the
caller's CostItem objects in place and returns the same list. Each item
keeps every field except the derived ones: price_unit_net is
overwritten with the margin-derived selling price exactly when a
purchase price is set, and the three totals are recomputed. -/
theorem apply_margin_step_frame (s : MarginSettings) (item : CostItem) :
    (applyMarginStep s item).name = item.name ∧
    (applyMarginStep s item).quantity = item.quantity ∧
    (applyMarginStep s item).unit = item.unit ∧
    (applyMarginStep s item).vat_rate = item.vat_rate ∧
    (applyMarginStep s item).category = item.category ∧
    (applyMarginStep s item).note = item.note ∧
    (applyMarginStep s item).group = item.group ∧
    (applyMarginStep s item).margin_percent = item.margin_percent ∧
    (applyMarginStep s item).purchase_price = item.purchase_price ∧
    (item.purchase_price = Option.none →
      (applyMarginStep s item).price_unit_net = item.price_unit_net) ∧
    (∀ pp, item.purchase_price = some pp →
      (applyMarginStep s item).price_unit_net =
        s.calculate_selling_price pp (some item.group) item.margin_percent) := by
  cases hpp : item.purchase_price with
  | none =>
    simp [applyMarginStep, CostItem.calculate_totals, hpp]
  | some pp =>
    simp [applyMarginStep, CostItem.calculate_totals, hpp]

/-- Witness for C9: a concrete item without purchase price keeps its
price_unit_net and quantity through apply_margin_to_items. -/
theorem apply_margin_step_frame_witness :
    (applyMarginStep ⟨20, []⟩
        ⟨"Łaty", 2, "mb", 50, 23, "material", "", "", Option.none, Option.none, 0, 0, 0⟩).quantity = 2 ∧
    (applyMarginStep ⟨20, []⟩
        ⟨"Łaty", 2, "mb", 50, 23, "material", "", "", Option.none, Option.none, 0, 0, 0⟩).price_unit_net = 50 := by
  have h := apply_margin_step_frame ⟨20, []⟩
    ⟨"Łaty", 2, "mb", 50, 23, "material", "", "", Option.none, Option.none, 0, 0, 0⟩
  exact ⟨h.2.1, h.2.2.2.2.2.2.2.2.2.1 rfl⟩

/-- C2 counterexample: at exactly 90 degrees calculate_slant_length
returns the float value inf — it does not fail with a
DegenerateGeometry error (no such error exists in the code; the unit
test even asserts the inf return). -/
theorem calculate_slant_length_inf_counterexample :
    calculate_slant_length 10 90 = SlantResult.inf := by
  simp [calculate_slant_length]

/-- C2 (amended): at exactly 90 degrees, or at any angle whose cosine is
exactly zero, calculate_slant_length returns the infinite sentinel and
performs no division; there is no DegenerateGeometry error. For every
other nonzero angle it divides by the cosine, even when that cosine is
merely near zero. -/
theorem calculate_slant_length_guard (h a : ℝ) :
    ((a = 90 ∨ Real.cos (degrees_to_radians a) = 0) →
      calculate_slant_length h a = SlantResult.inf) ∧
    (a ≠ 90 → a ≠ 0 → Real.cos (degrees_to_radians a) ≠ 0 →
      calculate_slant_length h a = SlantResult.val (h / Real.cos (degrees_to_radians a))) := by
  constructor
  · rintro (rfl | hcos)
    · simp [calculate_slant_length]
    · by_cases h90 : a = 90
      · simp [calculate_slant_length, h90]
      · have h0 : a ≠ 0 := by
          rintro rfl
          rw [degrees_to_radians] at hcos
          norm_num at hcos
        rw [calculate_slant_length, if_neg h90, if_neg h0, if_pos hcos]
  · intro h90 h0 hcos
    rw [calculate_slant_length, if_neg h90, if_neg h0, if_neg hcos]

/-- Witness for C2 at horizontal length 5 and angle 90. -/
theorem calculate_slant_length_guard_witness :
    calculate_slant_length 5 90 = SlantResult.inf :=
  (calculate_slant_length_guard 5 90).1 (Or.inl rfl)

theorem cos_deg_pos {a : ℝ} (h0 : 0 ≤ a) (h90 : a < 90) :
    0 < Real.cos (degrees_to_radians a) := by
  have hpi := Real.pi_pos
  apply Real.cos_pos_of_mem_Ioo
  constructor
  · have : 0 ≤ a * Real.pi / 180 := by positivity
    rw [degrees_to_radians]
    linarith
  · rw [degrees_to_radians]
    have h1 : a * Real.pi < 90 * Real.pi := mul_lt_mul_of_pos_right h90 hpi
    have h2 : (90 : ℝ) * Real.pi / 180 = Real.pi / 2 := by ring
    linarith

theorem slant_val_closed (h a : ℝ) (h90 : a ≠ 90)
    (hcos : Real.cos (degrees_to_radians a) ≠ 0) :
    calculate_slant_length h a = SlantResult.val (h / Real.cos (degrees_to_radians a)) := by
  by_cases h0 : a = 0
  · subst h0
    rw [calculate_slant_length, if_neg h90, if_pos rfl]
    rw [degrees_to_radians]
    norm_num
  · exact (calculate_slant_length_guard h a).2 h90 h0 hcos

theorem sqrt_half_sq_twice {m : ℝ} (hm : 0 ≤ m) :
    Real.sqrt ((m / 2) ^ 2 + (m / 2) ^ 2) = Real.sqrt 2 * (m / 2) := by
  have he : (m / 2) ^ 2 + (m / 2) ^ 2 = 2 * (m / 2) ^ 2 := by ring
  rw [he, Real.sqrt_mul (by norm_num : (0:ℝ) ≤ 2),
    Real.sqrt_sq (by positivity : (0:ℝ) ≤ m / 2)]

/-- C5: for a hip roof with positive length and width and an angle in
[0, 90), the computation canonicalizes by swapping when width exceeds
length: the flat ridge projection is max - min of the two dimensions,
the diagonal hip-rafter horizontal projection is the diagonal of a
square of side min/2, and the returned ridge length (dlugosc_gasiorow)
is 4 times the slant of that diagonal projection plus the flat ridge
projection, the flat part not depending on the angle. -/
theorem calculate_hip_roof_ridge (dl szer a : ℝ) (hdl : 0 < dl) (hsz : 0 < szer)
    (ha0 : 0 ≤ a) (ha90 : a < 90) :
    ∃ s r, calculate_slant_length
        (Real.sqrt ((min dl szer / 2) ^ 2 + (min dl szer / 2) ^ 2)) a = SlantResult.val s ∧
      calculate_hip_roof dl szer a = some r ∧
      Real.sqrt ((min dl szer / 2) ^ 2 + (min dl szer / 2) ^ 2) = Real.sqrt 2 * (min dl szer / 2) ∧
      r.dlugosc_gasiorow = 4 * s + (max dl szer - min dl szer) := by
  have hcos := cos_deg_pos ha0 ha90
  have hcne : Real.cos (degrees_to_radians a) ≠ 0 := ne_of_gt hcos
  have h90 : a ≠ 90 := ne_of_lt ha90
  rcases le_or_lt szer dl with hle | hlt
  · rw [min_eq_right hle, max_eq_left hle]
    have hs1 := slant_val_closed (Real.sqrt ((szer / 2) ^ 2 + (szer / 2) ^ 2)) a h90 hcne
    have hs2 := slant_val_closed (szer / 2) a h90 hcne
    have hhip : calculate_hip_roof dl szer a = some
        { dlugosc_okapu := 2 * (dl + szer)
        , dlugosc_gasiorow := 4 * (Real.sqrt ((szer / 2) ^ 2 + (szer / 2) ^ 2) /
            Real.cos (degrees_to_radians a)) + (dl - szer)
        , dlugosc_wiatrownic := 0
        , powierzchnia_dachu := 2 * (1/2 * szer * (szer / 2 / Real.cos (degrees_to_radians a)))
            + 2 * (1/2 * ((dl - szer) + dl) * (szer / 2 / Real.cos (degrees_to_radians a)))
        , dlugosc_koszy := 0
        , slant_rafter_length := szer / 2 / Real.cos (degrees_to_radians a)
        , roof_angle_deg := a } := by
      simp only [calculate_hip_roof]
      rw [if_pos hle]
      simp only [hs1, hs2]
    exact ⟨_, _, hs1, hhip, sqrt_half_sq_twice hsz.le, rfl⟩
  · rw [min_eq_left hlt.le, max_eq_right hlt.le]
    have hs1 := slant_val_closed (Real.sqrt ((dl / 2) ^ 2 + (dl / 2) ^ 2)) a h90 hcne
    have hs2 := slant_val_closed (dl / 2) a h90 hcne
    have hhip : calculate_hip_roof dl szer a = some
        { dlugosc_okapu := 2 * (dl + szer)
        , dlugosc_gasiorow := 4 * (Real.sqrt ((dl / 2) ^ 2 + (dl / 2) ^ 2) /
            Real.cos (degrees_to_radians a)) + (szer - dl)
        , dlugosc_wiatrownic := 0
        , powierzchnia_dachu := 2 * (1/2 * dl * (dl / 2 / Real.cos (degrees_to_radians a)))
            + 2 * (1/2 * ((szer - dl) + szer) * (dl / 2 / Real.cos (degrees_to_radians a)))
        , dlugosc_koszy := 0
        , slant_rafter_length := dl / 2 / Real.cos (degrees_to_radians a)
        , roof_angle_deg := a } := by
      simp only [calculate_hip_roof]
      rw [if_neg (not_le.mpr hlt)]
      simp only [hs1, hs2]
    exact ⟨_, _, hs1, hhip, sqrt_half_sq_twice hdl.le, rfl⟩

/-- Witness for C5 at length 4, width 3, angle 0. -/
theorem calculate_hip_roof_ridge_witness :
    ∃ s r, calculate_slant_length
        (Real.sqrt ((min (4:ℝ) 3 / 2) ^ 2 + (min (4:ℝ) 3 / 2) ^ 2)) 0 = SlantResult.val s ∧
      calculate_hip_roof 4 3 0 = some r ∧
      Real.sqrt ((min (4:ℝ) 3 / 2) ^ 2 + (min (4:ℝ) 3 / 2) ^ 2) = Real.sqrt 2 * (min (4:ℝ) 3 / 2) ∧
      r.dlugosc_gasiorow = 4 * s + (max (4:ℝ) 3 - min (4:ℝ) 3) :=
  calculate_hip_roof_ridge 4 3 0 (by norm_num) (by norm_num) (by norm_num) (by norm_num)

theorem flashSurface_error (items : List (String × FlashItem)) :
    ∀ acc, (∃ p ∈ items, p.2.selected = true ∧ (p.2.length < 0 ∨ p.2.width < 0)) →
      ∃ e, flashSurface items acc = Except.error e := by
  induction items with
  | nil =>
    intro acc h
    obtain ⟨p, hp, _⟩ := h
    simp at hp
  | cons hd t ih =>
    intro acc h
    obtain ⟨nm, d⟩ := hd
    obtain ⟨p, hp, hsel, hneg⟩ := h
    rcases List.mem_cons.mp hp with heq | hpt
    · subst heq
      simp only at hsel hneg
      simp only [flashSurface, hsel, if_true, if_pos hneg]
      exact ⟨_, rfl⟩
    · by_cases hsel2 : d.selected = true
      · by_cases hneg2 : d.length < 0 ∨ d.width < 0
        · exact ⟨"Długość i szerokość obróbki " ++ nm ++ " nie mogą być ujemne.",
            by simp only [flashSurface, hsel2, if_true, if_pos hneg2]⟩
        · have hrec := ih (acc + d.length * d.width) ⟨p, hpt, hsel, hneg⟩
          simpa only [flashSurface, hsel2, if_true, if_neg hneg2] using hrec
      · have hrec := ih acc ⟨p, hpt, hsel, hneg⟩
        simpa only [flashSurface, Bool.not_eq_true] using
          (by simpa only [flashSurface, if_neg hsel2] using hrec :
            ∃ e, flashSurface ((nm, d) :: t) acc = Except.error e)

/-- C6 (amended): guttering, chimney flashing, the flashing-sheet
optimizer (for selected entries), felt roofing (for the main roof
surface) and timber volume all fail with a ValueError on a negative
dimension, but chimney insulation does not: it silently returns the
all-zero result for any negative (indeed any non-positive) dimension
instead of failing. -/
theorem calculators_reject_negative :
    (∀ (okap rh : ℚ) (nd : Option ℤ), okap < 0 ∨ rh < 0 →
      ∃ e, calculate_guttering okap rh nd = Except.error e) ∧
    (∀ (w l h ang : ℚ) (cov : String) (n : ℤ), w < 0 ∨ l < 0 ∨ h < 0 ∨ n < 0 →
      ∃ e, calculate_chimney_flashings w l h ang cov n = Except.error e) ∧
    (∀ (w l h : ℚ) (n : ℤ), w < 0 ∨ l < 0 ∨ h < 0 ∨ n < 0 →
      calculate_chimney_insulation w l h n = ⟨0, 0⟩) ∧
    (∀ (items : List (String × FlashItem)) (sw sl : ℚ),
      (∃ p ∈ items, p.2.selected = true ∧ (p.2.length < 0 ∨ p.2.width < 0)) →
      ∃ e, calculate_flashings_total items sw sl = Except.error e) ∧
    (∀ (rs : ℚ) (rt : String) (b1 b2 b3 b4 : Bool) (cf fl fh ft : ℚ), rs < 0 →
      ∃ e, calculate_felt_roof rs rt b1 b2 b3 b4 cf fl fh ft = Except.error e) ∧
    (∀ (q : ℤ) (lm wc hc : ℚ), q < 0 ∨ lm < 0 ∨ wc < 0 ∨ hc < 0 →
      ∃ e, calculate_timber_volume q lm wc hc = Except.error e) := by
  refine ⟨?_, ?_, ?_, ?_, ?_, ?_⟩
  · intro okap rh nd h
    exact ⟨_, by unfold calculate_guttering; rw [if_pos h]⟩
  · intro w l h ang cov n hh
    exact ⟨_, by unfold calculate_chimney_flashings; rw [if_pos hh]⟩
  · intro w l h n hh
    have h2 : w ≤ 0 ∨ l ≤ 0 ∨ h ≤ 0 ∨ n ≤ 0 := by
      rcases hh with h1 | h1 | h1 | h1
      · exact Or.inl h1.le
      · exact Or.inr (Or.inl h1.le)
      · exact Or.inr (Or.inr (Or.inl h1.le))
      · exact Or.inr (Or.inr (Or.inr h1.le))
    unfold calculate_chimney_insulation
    rw [if_pos h2]
  · intro items sw sl hh
    obtain ⟨e, he⟩ := flashSurface_error items 0 hh
    exact ⟨e, by unfold calculate_flashings_total; rw [he]⟩
  · intro rs rt b1 b2 b3 b4 cf fl fh ft hh
    exact ⟨_, by unfold calculate_felt_roof; rw [if_pos hh]⟩
  · intro q lm wc hc hh
    exact ⟨_, by unfold calculate_timber_volume; rw [if_pos hh]⟩

/-- C6 counterexample: chimney insulation with a negative width returns
the all-zero result instead of failing with InvalidInput. -/
theorem chimney_insulation_silent_counterexample :
    calculate_chimney_insulation (-1) 1 1 1 = ⟨0, 0⟩ := by
  unfold calculate_chimney_insulation
  norm_num

/-- Witness for C6: each calculator at a concrete negative input. -/
theorem calculators_reject_negative_witness :
    (∃ e, calculate_guttering (-1) 1 Option.none = Except.error e) ∧
    (∃ e, calculate_chimney_flashings (-1) 1 1 30 "papa" 1 = Except.error e) ∧
    calculate_chimney_insulation 1 (-1) 1 1 = ⟨0, 0⟩ ∧
    (∃ e, calculate_flashings_total [("pas nadrynnowy", ⟨true, -1, 1⟩)]
      (125/100) (250/100) = Except.error e) ∧
    (∃ e, calculate_felt_roof (-5) "dwuspadowy" true false false false 0 0 0 0 = Except.error e) ∧
    (∃ e, calculate_timber_volume (-1) 1 1 1 = Except.error e) :=
  ⟨calculators_reject_negative.1 (-1) 1 Option.none (Or.inl (by norm_num)),
   calculators_reject_negative.2.1 (-1) 1 1 30 "papa" 1 (Or.inl (by norm_num)),
   calculators_reject_negative.2.2.1 1 (-1) 1 1 (Or.inr (Or.inl (by norm_num))),
   calculators_reject_negative.2.2.2.1 [("pas nadrynnowy", ⟨true, -1, 1⟩)] (125/100) (250/100)
     ⟨("pas nadrynnowy", ⟨true, -1, 1⟩), by simp, rfl, Or.inl (by norm_num)⟩,
   calculators_reject_negative.2.2.2.2.1 (-5) "dwuspadowy" true false false false 0 0 0 0
     (by norm_num),
   calculators_reject_negative.2.2.2.2.2 (-1) 1 1 1 (Or.inl (by norm_num))⟩
